import Mathlib

set_option maxHeartbeats 1000000

namespace Pyrs

/-- Python AST operator, `Pass`, and related leaf classes that appear as keys of the
`symbols` table of `clike.py` (lines 4-30) or as the `op` child of an operator node.
The kinds `Pow`, `MatMult`, `UAdd` and `NotIn` exist in the Python AST but are absent
from the `symbols` table. -/
inductive Op where
  | Eq | Is | NotEq | Pass | Mult | Add | Sub | Div | FloorDiv | Mod
  | Lt | Gt | GtE | LtE | LShift | RShift | BitXor | BitOr | BitAnd
  | Not | IsNot | USub | And | Or | In
  | Pow | MatMult | UAdd | NotIn
  deriving DecidableEq

/-- The `symbols` dictionary of `clike.py` (lines 4-30): operator kind to target token.
Kinds that are not keys of the dictionary map to `none`. -/
def symbols : Op → Option String
  | .Eq => some "=="
  | .Is => some "=="
  | .NotEq => some "!="
  | .Pass => some "/*pass*/"
  | .Mult => some "*"
  | .Add => some "+"
  | .Sub => some "-"
  | .Div => some "/"
  | .FloorDiv => some "/"
  | .Mod => some "%"
  | .Lt => some "<"
  | .Gt => some ">"
  | .GtE => some ">="
  | .LtE => some "<="
  | .LShift => some "<<"
  | .RShift => some ">>"
  | .BitXor => some "^"
  | .BitOr => some "|"
  | .BitAnd => some "&"
  | .Not => some "!"
  | .IsNot => some "!="
  | .USub => some "-"
  | .And => some "&&"
  | .Or => some "||"
  | .In => some "in"
  | .Pow => none
  | .MatMult => none
  | .UAdd => none
  | .NotIn => none

/-- Printable name of the Python AST class of an operator kind, as carried by the
`KeyError` that a failed dictionary lookup raises. -/
def opName : Op → String
  | .Eq => "ast.Eq"
  | .Is => "ast.Is"
  | .NotEq => "ast.NotEq"
  | .Pass => "ast.Pass"
  | .Mult => "ast.Mult"
  | .Add => "ast.Add"
  | .Sub => "ast.Sub"
  | .Div => "ast.Div"
  | .FloorDiv => "ast.FloorDiv"
  | .Mod => "ast.Mod"
  | .Lt => "ast.Lt"
  | .Gt => "ast.Gt"
  | .GtE => "ast.GtE"
  | .LtE => "ast.LtE"
  | .LShift => "ast.LShift"
  | .RShift => "ast.RShift"
  | .BitXor => "ast.BitXor"
  | .BitOr => "ast.BitOr"
  | .BitAnd => "ast.BitAnd"
  | .Not => "ast.Not"
  | .IsNot => "ast.IsNot"
  | .USub => "ast.USub"
  | .And => "ast.And"
  | .Or => "ast.Or"
  | .In => "ast.In"
  | .Pow => "ast.Pow"
  | .MatMult => "ast.MatMult"
  | .UAdd => "ast.UAdd"
  | .NotIn => "ast.NotIn"

/-- The `type_map` dictionary of `clike.py` (lines 32-37): source primitive type name to
target type token. -/
def type_map : String → Option String
  | "int" => some "i32"
  | "float" => some "f32"
  | "bytes" => some "&[u8]"
  | "str" => some "&str"
  | _ => none

/-- The `rust_keywords` frozenset of `clike.py` (lines 40-58). -/
def rust_keywords : List String :=
  ["struct", "type", "match", "impl", "const", "enum", "extern", "fn", "loop",
   "move", "mut", "pub", "ref", "trait", "where", "use", "unsafe"]

/-- The `builtin_constants` frozenset of `CLikeTranspiler`. -/
def builtin_constants : List String := ["True", "False"]

/-- Python exceptions that translation code can raise. -/
inductive PyErr where
  | keyError (key : String)
  | typeError
  | attributeError
  deriving DecidableEq

/-- The `c_symbol` function of `clike.py` (lines 61-64): `symbols[type(node)]`. A missing
key raises a `KeyError` naming the looked-up class. -/
def c_symbol (op : Op) : Except PyErr String :=
  match symbols op with
  | some s => Except.ok s
  | none => Except.error (PyErr.keyError (opName op))

/-- Python string interpolation of a visit result: a returned string is inserted as is,
a returned `None` prints as the text `None`. -/
def pyFmt : Option String → String
  | some s => s
  | none => "None"

/-- Models Python `str.join` element checking: joining succeeds only when every element
is an actual string; a `None` element raises a `TypeError`. -/
def allStrings : List (Option String) → Option (List String)
  | [] => some []
  | some s :: rest => (allStrings rest).map (fun l => s :: l)
  | none :: _ => none

mutual
/-- Python AST nodes for which `CLikeTranspiler` has behaviour, plus `Call`: a node kind
with no `visit_Call` rule, which therefore reaches the inherited default traversal
`ast.NodeVisitor.generic_visit`. The Boolean `annot` models the presence of the
attribute that `visit_Name` probes with `hasattr` (the annotation-position flag).
`Compare` stores the structurally non-empty parallel operator/comparator chains as a
first pair plus the rest, matching the AST invariant `len(ops) >= 1`. -/
inductive Node where
  | Name (id : String) (annot : Bool)
  | NameConstant (value : Option Bool)
  | Num (n : Int)
  | Str (s : String)
  | OpNode (op : Op)
  | BinOp (left : Node) (op : Op) (right : Node)
  | UnaryOp (op : Op) (operand : Node)
  | BoolOp (op : Op) (values : List Node)
  | Compare (left : Node) (op0 : Op) (restOps : List Op) (comp0 : Node)
      (restComps : List Node)
  | JoinedStr (values : List JValue)
  | Return (value : Option Node)
  | If (test : Node) (body : List Node) (orelse : List Node)
  | While (test : Node) (body : List Node)
  | Continue
  | Break
  | AugAssign (target : Node) (op : Op) (value : Node)
  | Call (func : Node) (args : List Node)

/-- One value of a `JoinedStr`: an `ast.Constant` literal text run, or an
`ast.FormattedValue` with its inner expression and the optional text of its
format spec (the `.s` of the first value of the spec node). -/
inductive JValue where
  | Constant (s : String)
  | Formatted (value : Node) (format_spec : Option String)
end

/-- Dispatch of `CLikeTranspiler.visit` on an operator node (`clike.py` lines 70-74):
if the node's class is a key of `symbols`, return `c_symbol`; otherwise
`ast.NodeVisitor.visit` finds no handler and `generic_visit` returns `None`
(operator nodes have no AST children to traverse). -/
def visit_op (op : Op) : Except PyErr (Option String) :=
  match symbols op with
  | some s => Except.ok (some s)
  | none => Except.ok none

/-- Python `str.lower`: each character lower-cased (ASCII case mapping suffices for the
identifiers involved). -/
def pyLower (s : String) : String :=
  String.mk (s.data.map Char.toLower)

/-- The body of `visit_Name` (`clike.py` lines 107-115), a pure function of the
identifier and the annotation-position flag. -/
def visit_Name (id : String) (annot : Bool) : String :=
  if id ∈ builtin_constants then pyLower id
  else if id ∈ rust_keywords then id ++ "_"
  else if annot then
    match type_map id with
    | some t => t
    | none => id
  else id

/-- The contribution of one `JoinedStr` value to the `format!` template string built by
`visit_JoinedStr` (`clike.py` lines 80-88): a `Constant` copies its text (`str(value.value)`),
a `FormattedValue` without spec contributes the debug placeholder, and one with a spec
contributes the output of `visit_FormatSpec`. -/
def segText : JValue → String
  | .Constant s => s
  | .Formatted _ none => "\x7b:?\x7d"
  | .Formatted _ (some spec) => "\x7b:#" ++ spec ++ "\x7d"

/-- The full `format!` template: the loop of `visit_JoinedStr` over `node.values`. -/
def templateOf (values : List JValue) : String :=
  String.join (values.map segText)

/-- Python decimal rendering `str(n)` of a natural number: most significant digit
first, each digit as its ASCII character. -/
def pyNatRepr (n : Nat) : String :=
  if n = 0 then "0"
  else ((Nat.digits 10 n).reverse.map (fun d => Char.ofNat (48 + d))).asString

/-- Python decimal rendering `str(n)` of an integer, as produced by `visit_Num`
(`clike.py` lines 125-126) on an integer literal. -/
def pyIntRepr (n : Int) : String :=
  if n < 0 then "-" ++ pyNatRepr n.natAbs else pyNatRepr n.natAbs

mutual
/-- The `visit` dispatcher of `CLikeTranspiler` (`clike.py` lines 70-74) together with
all its `visit_*` handlers. A node whose class is a key of `symbols` translates through
`c_symbol`; any other node dispatches to its `visit_<Kind>` method, and a kind with no
such method reaches `ast.NodeVisitor.generic_visit`, which visits the children
(discarding their results) and returns `None` — modelled as `Except.ok none`.
`visit_FormattedValue` has two dead branches (`node.value` is a required AST field and
is never the Python string type), so it reduces to `visit node.value`. String results
are spliced with `pyFmt` exactly where Python `str.format` renders them, so a `None`
sub-result prints as the text `None`; `str.join` over a list with a `None` element
raises `TypeError`, modelled through `allStrings`. -/
def visit : Node → Except PyErr (Option String)
  | .OpNode op => visit_op op
  | .Name id annot => Except.ok (some (visit_Name id annot))
  | .NameConstant (some true) => Except.ok (some "true")
  | .NameConstant (some false) => Except.ok (some "false")
  | .NameConstant none => Except.ok none
  | .Num n => Except.ok (some (pyIntRepr n))
  | .Str s => Except.ok (some ("\"" ++ s.replace "\"" "\\\"" ++ "\""))
  | .Return none => Except.ok (some "return;")
  | .Return (some v) => do
      let r ← visit v
      Except.ok (some ("return " ++ pyFmt r ++ ";"))
  | .If test body orelse => do
      let vt ← visit test
      let vbody ← visitEach body
      let vorelse ← visitEach orelse
      let buf := some ("if " ++ pyFmt vt ++ " \x7b") :: vbody ++
        (if vorelse.isEmpty then [some "\x7d"]
         else some "\x7d else \x7b" :: vorelse ++ [some "\x7d"])
      match allStrings buf with
      | some lines => Except.ok (some (String.intercalate "\n" lines))
      | none => Except.error PyErr.typeError
  | .While test body => do
      let vt ← visit test
      let vbody ← visitEach body
      match allStrings (some ("while " ++ pyFmt vt ++ " \x7b") :: vbody ++ [some "\x7d"]) with
      | some lines => Except.ok (some (String.intercalate "\n" lines))
      | none => Except.error PyErr.typeError
  | .Continue => Except.ok (some "continue;")
  | .Break => Except.ok (some "break;")
  | .Compare left op0 _ comp0 _ => do
      let vl ← visit left
      let vop ← visit_op op0
      let vr ← visit comp0
      if op0 = Op.In then
        Except.ok (some (pyFmt vr ++ ".any(" ++ pyFmt vl ++ ")"))
      else
        Except.ok (some (pyFmt vl ++ " " ++ pyFmt vop ++ " " ++ pyFmt vr))
  | .BoolOp op values => do
      let vop ← visit_op op
      match vop with
      | none => Except.error PyErr.attributeError
      | some o => do
          let vs ← visitEach values
          match allStrings vs with
          | some ss => Except.ok (some (String.intercalate o ss))
          | none => Except.error PyErr.typeError
  | .BinOp left op right =>
      if op = Op.Pow then do
        let vl ← visit left
        let vr ← visit right
        Except.ok (some (pyFmt vl ++ ".pow(" ++ pyFmt vr ++ ")"))
      else if op = Op.Mult ∨ op = Op.Div then do
        let vl ← visit left
        let vop ← visit_op op
        let vr ← visit right
        Except.ok (some ("(" ++ pyFmt vl ++ pyFmt vop ++ pyFmt vr ++ ")"))
      else do
        let vl ← visit left
        let vop ← visit_op op
        let vr ← visit right
        Except.ok (some ("(" ++ pyFmt vl ++ " " ++ pyFmt vop ++ " " ++ pyFmt vr ++ ")"))
  | .UnaryOp op operand => do
      let vop ← visit_op op
      let v ← visit operand
      Except.ok (some (pyFmt vop ++ pyFmt v))
  | .AugAssign target op value => do
      let vt ← visit target
      let vop ← visit_op op
      let vv ← visit value
      Except.ok (some (pyFmt vt ++ " " ++ pyFmt vop ++ "= " ++ pyFmt vv ++ ";"))
  | .JoinedStr values => do
      let fvs ← visitFormattedValues values
      match allStrings fvs with
      | some args =>
          Except.ok (some ("format!(\"" ++ templateOf values ++ "\"," ++
            String.intercalate "," args ++ ")"))
      | none => Except.error PyErr.typeError
  | .Call func args => do
      let _ ← visit func
      let _ ← visitEach args
      Except.ok none

/-- List-comprehension visiting of a list of child nodes, in order. -/
def visitEach : List Node → Except PyErr (List (Option String))
  | [] => Except.ok []
  | n :: rest => do
      let v ← visit n
      let vs ← visitEach rest
      Except.ok (v :: vs)

/-- The `formatted_values` comprehension of `visit_JoinedStr`: visits every value that
is not an `ast.Constant`, in order, through `visit_FormattedValue` (which reduces to
`visit` of the inner expression). -/
def visitFormattedValues : List JValue → Except PyErr (List (Option String))
  | [] => Except.ok []
  | .Constant _ :: rest => visitFormattedValues rest
  | .Formatted v _ :: rest => do
      let r ← visit v
      let rs ← visitFormattedValues rest
      Except.ok (r :: rs)
end

/-- Whether a `JoinedStr` value is an expression segment (`ast.FormattedValue`) rather
than a literal text run (`ast.Constant`). -/
def isFormattedSeg : JValue → Bool
  | .Constant _ => false
  | .Formatted _ _ => true

/-- Decimal digit character (ASCII 48-57). -/
def isDigitChar (c : Char) : Bool := 48 ≤ c.toNat && c.toNat ≤ 57

/-- Numeric value of a most-significant-first list of decimal digit characters. -/
def digitsVal (l : List Char) : Nat :=
  l.foldl (fun a c => 10 * a + (c.toNat - 48)) 0

/-- Reads an unsigned decimal numeric literal the way the target language lexes one:
a non-empty all-digit string denotes its decimal value. -/
def parseDecNat (s : String) : Option Nat :=
  if !s.data.isEmpty && s.data.all isDigitChar then some (digitsVal s.data) else none

/-- Reads back the text of an integer numeric literal (an optional leading minus sign
followed by decimal digits) as the numeric value it denotes in the target language. -/
def parseIntLit (s : String) : Option Int :=
  if s.data.head? = some '-' then
    (parseDecNat (String.mk s.data.tail)).map (fun m => -(m : Int))
  else
    (parseDecNat s).map (fun m => (m : Int))

theorem allStrings_map_some (l : List String) : allStrings (l.map some) = some l := by
  induction l with
  | nil => rfl
  | cons x xs ih => simp [allStrings, ih]

theorem allStrings_append (l1 l2 : List (Option String)) :
    allStrings (l1 ++ l2) =
      (allStrings l1).bind (fun a => (allStrings l2).map (fun b => a ++ b)) := by
  induction l1 with
  | nil => cases h : allStrings l2 <;> simp [allStrings, h]
  | cons x xs ih =>
    cases x with
    | none => simp [allStrings]
    | some s =>
      cases h1 : allStrings xs <;> cases h2 : allStrings l2 <;>
        simp [allStrings, ih, h1, h2]

theorem visitFormattedValues_length (vs : List JValue) (rs : List (Option String))
    (h : visitFormattedValues vs = Except.ok rs) :
    rs.length = (vs.filter isFormattedSeg).length := by
  induction vs generalizing rs with
  | nil =>
    simp [visitFormattedValues] at h
    simp [h.symm]
  | cons v rest ih =>
    cases v with
    | Constant s =>
      rw [visitFormattedValues] at h
      simpa [isFormattedSeg] using ih rs h
    | Formatted n sp =>
      rw [visitFormattedValues] at h
      cases hv : visit n with
      | error e => simp [hv, bind, Except.bind] at h
      | ok r =>
        cases hrest : visitFormattedValues rest with
        | error e => simp [hv, hrest, bind, Except.bind] at h
        | ok rs2 =>
          simp only [hv, hrest, bind, Except.bind, Except.ok.injEq] at h
          subst h
          simpa [isFormattedSeg] using ih rs2 hrest

theorem allStrings_cons_some (s : String) (l : List (Option String)) :
    allStrings (some s :: l) = (allStrings l).map (fun t => s :: t) := rfl

theorem toNat_digitChar (d : Nat) (hd : d < 10) : (Char.ofNat (48 + d)).toNat = 48 + d := by
  interval_cases d <;> rfl

theorem foldl_digitChars (l : List Nat) (hl : ∀ d ∈ l, d < 10) (i : Nat) :
    List.foldl (fun a c => 10 * a + (c.toNat - 48)) i
      (l.map (fun d => Char.ofNat (48 + d))) =
      List.foldl (fun a d => 10 * a + d) i l := by
  induction l generalizing i with
  | nil => rfl
  | cons x xs ih =>
    have hx : x < 10 := hl x (by simp)
    simp only [List.map_cons, List.foldl_cons]
    rw [toNat_digitChar x hx]
    have he : 48 + x - 48 = x := by omega
    rw [he]
    exact ih (fun d hd => hl d (by simp [hd])) _

theorem foldl_reverse_ofDigits (l : List Nat) (i : Nat) :
    List.foldl (fun a d => 10 * a + d) i l.reverse =
      i * 10 ^ l.length + Nat.ofDigits 10 l := by
  induction l generalizing i with
  | nil => simp
  | cons x xs ih =>
    simp only [List.reverse_cons, List.foldl_append, List.foldl_cons, List.foldl_nil]
    rw [ih, Nat.ofDigits_cons, List.length_cons, pow_succ]
    ring

theorem pyNatRepr_data (n : Nat) (h0 : n ≠ 0) :
    (pyNatRepr n).data = (Nat.digits 10 n).reverse.map (fun d => Char.ofNat (48 + d)) := by
  rw [pyNatRepr, if_neg h0]
  rfl

theorem pyNatRepr_all_digits (n : Nat) : (pyNatRepr n).data.all isDigitChar = true := by
  by_cases h0 : n = 0
  · subst h0; rfl
  · rw [pyNatRepr_data n h0, List.all_eq_true]
    rintro c hc
    rw [List.mem_map] at hc
    obtain ⟨d, hd, rfl⟩ := hc
    have hlt : d < 10 := Nat.digits_lt_base (by norm_num) (List.mem_reverse.mp hd)
    simp [isDigitChar, toNat_digitChar d hlt]
    omega

theorem parseDecNat_pyNatRepr (n : Nat) : parseDecNat (pyNatRepr n) = some n := by
  by_cases h0 : n = 0
  · subst h0; rfl
  · have hne : Nat.digits 10 n ≠ [] := Nat.digits_ne_nil_iff_ne_zero.mpr h0
    have hdata := pyNatRepr_data n h0
    rw [parseDecNat, hdata]
    have hnonempty :
        ((Nat.digits 10 n).reverse.map (fun d => Char.ofNat (48 + d))).isEmpty = false := by
      simp [List.isEmpty_iff, hne]
    have halldig :
        ((Nat.digits 10 n).reverse.map (fun d => Char.ofNat (48 + d))).all isDigitChar
          = true := by
      have := pyNatRepr_all_digits n
      rwa [hdata] at this
    rw [hnonempty, halldig]
    simp only [Bool.not_false, Bool.true_and, if_true]
    congr 1
    rw [digitsVal,
      foldl_digitChars _ (fun d hd => Nat.digits_lt_base (by norm_num) (List.mem_reverse.mp hd)) 0,
      foldl_reverse_ofDigits]
    simp [Nat.ofDigits_digits]

theorem pyNatRepr_head_ne_minus (n : Nat) : (pyNatRepr n).data.head? ≠ some '-' := by
  intro h
  have hmem : '-' ∈ (pyNatRepr n).data := by
    cases hd : (pyNatRepr n).data with
    | nil => rw [hd] at h; simp at h
    | cons c rest => rw [hd] at h; simp at h; simp [hd, h]
  have hall := pyNatRepr_all_digits n
  rw [List.all_eq_true] at hall
  have := hall '-' hmem
  simp [isDigitChar] at this

/-- C1 counterexample: the claim asserts that every binary-operation node, with any
operator kind including exponentiation, produces text wrapped in parentheses. On the
code, `a ** b` translates to `a.pow(b)`, whose first character is not a left
parenthesis, so the text is not wrapped. -/
theorem c1_pow_not_wrapped_cex :
    visit (.BinOp (.Name "a" false) .Pow (.Name "b" false)) = Except.ok (some "a.pow(b)") ∧
    "a.pow(b)".data.head? ≠ some '(' :=
  ⟨rfl, by decide⟩

/-- C1 (amended): for every binary-operation node whose operator kind is a key of the
operator table (which excludes exponentiation, handled by the `.pow` special case), the
translated text is wrapped in parentheses; the `Mult` and `Div` operator kinds are
rendered with no whitespace around the operator token, while all other table-mapped
binary operators keep a single space on each side of the token. -/
theorem c1_binop_parens_spacing (l r : Node) (op : Op) (tok sl sr : String)
    (hl : visit l = Except.ok (some sl)) (hr : visit r = Except.ok (some sr))
    (htok : symbols op = some tok) :
    visit (.BinOp l op r) =
      Except.ok (some (if op = Op.Mult ∨ op = Op.Div
        then "(" ++ sl ++ tok ++ sr ++ ")"
        else "(" ++ sl ++ " " ++ tok ++ " " ++ sr ++ ")")) ∧
    (∃ t : String, (if op = Op.Mult ∨ op = Op.Div
        then "(" ++ sl ++ tok ++ sr ++ ")"
        else "(" ++ sl ++ " " ++ tok ++ " " ++ sr ++ ")") = "(" ++ t ++ ")") := by
  have hpow : op ≠ Op.Pow := by rintro rfl; simp [symbols] at htok
  constructor
  · by_cases hmd : op = Op.Mult ∨ op = Op.Div
    · simp [visit, hl, hr, hpow, hmd, visit_op, htok, pyFmt, bind, Except.bind]
    · simp [visit, hl, hr, hpow, hmd, visit_op, htok, pyFmt, bind, Except.bind]
  · by_cases hmd : op = Op.Mult ∨ op = Op.Div
    · refine ⟨sl ++ tok ++ sr, ?_⟩
      simp only [hmd, if_true]
      apply String.ext
      simp [String.data_append]
    · refine ⟨sl ++ " " ++ tok ++ " " ++ sr, ?_⟩
      simp only [hmd, if_false]
      apply String.ext
      simp [String.data_append]

/-- C1 witness: instantiates the amended statement at `a + b` (spaced, parenthesised)
and `a * b` (unspaced, parenthesised). -/
theorem c1_binop_parens_spacing_witness :
    (visit (.BinOp (.Name "a" false) .Add (.Name "b" false)) =
      Except.ok (some (if Op.Add = Op.Mult ∨ Op.Add = Op.Div
        then "(" ++ "a" ++ "+" ++ "b" ++ ")"
        else "(" ++ "a" ++ " " ++ "+" ++ " " ++ "b" ++ ")")) ∧
     (∃ t : String, (if Op.Add = Op.Mult ∨ Op.Add = Op.Div
        then "(" ++ "a" ++ "+" ++ "b" ++ ")"
        else "(" ++ "a" ++ " " ++ "+" ++ " " ++ "b" ++ ")") = "(" ++ t ++ ")")) ∧
    (visit (.BinOp (.Name "a" false) .Mult (.Name "b" false)) =
      Except.ok (some (if Op.Mult = Op.Mult ∨ Op.Mult = Op.Div
        then "(" ++ "a" ++ "*" ++ "b" ++ ")"
        else "(" ++ "a" ++ " " ++ "*" ++ " " ++ "b" ++ ")")) ∧
     (∃ t : String, (if Op.Mult = Op.Mult ∨ Op.Mult = Op.Div
        then "(" ++ "a" ++ "*" ++ "b" ++ ")"
        else "(" ++ "a" ++ " " ++ "*" ++ " " ++ "b" ++ ")") = "(" ++ t ++ ")")) :=
  ⟨c1_binop_parens_spacing (.Name "a" false) (.Name "b" false) .Add "+" "a" "b" rfl rfl rfl,
   c1_binop_parens_spacing (.Name "a" false) (.Name "b" false) .Mult "*" "a" "b" rfl rfl rfl⟩

/-- C2 counterexample: the claim asserts that an unhandled node kind or an operator
kind absent from the operator table raises a hard failure naming the kind and emits no
text. On the code, a binary node whose operator (`ast.MatMult`) is absent from the
table translates without any failure to text embedding `None`, and a node kind with no
rule (`ast.Call`) silently yields the default traversal's `None` return value. -/
theorem c2_unmapped_silent_cex :
    visit (.BinOp (.Name "a" false) .MatMult (.Name "b" false)) =
      Except.ok (some "(a None b)") ∧
    visit (.Call (.Name "f" false) [.Name "x" false]) = Except.ok none ∧
    symbols .MatMult = none :=
  ⟨rfl, rfl, rfl⟩

/-- C2 (amended): translation of an unhandled node kind does not fail: it falls back to
the inherited default traversal and returns `None`; a binary node whose operator kind
is absent from the operator table renders that operator as the text `None` inside its
output. Only the direct table lookup `c_symbol` raises a `KeyError` naming the
unmapped operator kind. -/
theorem c2_unhandled_fallback :
    (∀ (f : Node) (args : List Node) (vf : Option String) (vas : List (Option String)),
      visit f = Except.ok vf → visitEach args = Except.ok vas →
      visit (.Call f args) = Except.ok none) ∧
    (∀ (l r : Node) (op : Op) (sl sr : String),
      visit l = Except.ok (some sl) → visit r = Except.ok (some sr) →
      symbols op = none → op ≠ Op.Pow →
      visit (.BinOp l op r) = Except.ok (some ("(" ++ sl ++ " None " ++ sr ++ ")"))) ∧
    (∀ op : Op, symbols op = none →
      c_symbol op = Except.error (PyErr.keyError (opName op))) := by
  refine ⟨?_, ?_, ?_⟩
  · intro f args vf vas hf has
    simp [visit, hf, has, bind, Except.bind]
  · intro l r op sl sr hl hr hsym hpow
    have hm : op ≠ Op.Mult := by rintro rfl; simp [symbols] at hsym
    have hd : op ≠ Op.Div := by rintro rfl; simp [symbols] at hsym
    have hmd : ¬(op = Op.Mult ∨ op = Op.Div) := by tauto
    have hfold : "(" ++ sl ++ " " ++ "None" ++ " " ++ sr ++ ")" =
        "(" ++ sl ++ " None " ++ sr ++ ")" := by
      apply String.ext
      simp [String.data_append]
    rw [← hfold]
    simp [visit, hl, hr, hpow, hmd, visit_op, hsym, pyFmt, bind, Except.bind]
  · intro op hsym
    simp [c_symbol, hsym]

/-- C2 witness: instantiates the amended statement at an unhandled call node, at
`a @ b` with the unmapped `ast.MatMult` operator, and at a direct `c_symbol` lookup of
`ast.MatMult`. -/
theorem c2_unhandled_fallback_witness :
    visit (.Call (.Name "f" false) [.Name "x" false]) = Except.ok none ∧
    visit (.BinOp (.Name "a" false) .MatMult (.Name "b" false)) =
      Except.ok (some ("(" ++ "a" ++ " None " ++ "b" ++ ")")) ∧
    c_symbol .MatMult = Except.error (PyErr.keyError (opName .MatMult)) :=
  ⟨c2_unhandled_fallback.1 (.Name "f" false) [.Name "x" false] (some "f")
      [some "x"] rfl rfl,
   c2_unhandled_fallback.2.1 (.Name "a" false) (.Name "b" false) .MatMult "a" "b"
      rfl rfl rfl (by decide),
   c2_unhandled_fallback.2.2 .MatMult rfl⟩

/-- C3: identifier translation follows exactly this priority order: a recognised
boolean-constant name emits the lower-cased target boolean literal; otherwise a
reserved-word identifier gets the suffix underscore appended exactly once; otherwise,
with the annotation-position flag set and the identifier a key of the primitive-type
table, the mapped type token is emitted; otherwise the identifier is unchanged. -/
theorem c3_identifier_priority (id : String) (b : Bool) :
    (visit (.Name "True" b) = Except.ok (some "true") ∧
     visit (.Name "False" b) = Except.ok (some "false")) ∧
    (id ∉ builtin_constants → id ∈ rust_keywords →
      visit (.Name id b) = Except.ok (some (id ++ "_"))) ∧
    (∀ t, id ∉ builtin_constants → id ∉ rust_keywords → b = true →
      type_map id = some t → visit (.Name id b) = Except.ok (some t)) ∧
    (id ∉ builtin_constants → id ∉ rust_keywords →
      (b = false ∨ type_map id = none) →
      visit (.Name id b) = Except.ok (some id)) := by
  refine ⟨⟨rfl, rfl⟩, ?_, ?_, ?_⟩
  · intro h1 h2
    simp [visit, visit_Name, h1, h2]
  · intro t h1 h2 hb ht
    subst hb
    simp [visit, visit_Name, h1, h2, ht]
  · intro h1 h2 h3
    rcases h3 with hb | ht
    · subst hb
      simp [visit, visit_Name, h1, h2]
    · simp [visit, visit_Name, h1, h2, ht]

/-- C3 witness: the reserved word `type` gains the suffix, `int` in annotation
position maps to the type token, and an ordinary identifier is unchanged. -/
theorem c3_identifier_priority_witness :
    visit (.Name "type" false) = Except.ok (some ("type" ++ "_")) ∧
    visit (.Name "int" true) = Except.ok (some "i32") ∧
    visit (.Name "foo" false) = Except.ok (some "foo") :=
  ⟨(c3_identifier_priority "type" false).2.1 (by decide) (by decide),
   (c3_identifier_priority "int" true).2.2.1 "i32" (by decide) (by decide) rfl rfl,
   (c3_identifier_priority "foo" false).2.2.2 (by decide) (by decide) (Or.inl rfl)⟩

/-- C4: an interpolated string with `k` expression segments translates to one
`format!` invocation whose template is the in-order concatenation of the per-segment
texts (literal runs verbatim, a debug placeholder for a bare expression segment, a
placeholder embedding the specifier text for a segment with one), followed by a
comma-separated argument list that is exactly the `k` in-order translations of the
segments' inner expressions. -/
theorem c4_interpolation_shape (vs : List JValue) (args : List String)
    (h : visitFormattedValues vs = Except.ok (args.map some)) :
    visit (.JoinedStr vs) =
      Except.ok (some ("format!(\"" ++ templateOf vs ++ "\"," ++
        String.intercalate "," args ++ ")")) ∧
    args.length = (vs.filter isFormattedSeg).length := by
  constructor
  · simp [visit, h, bind, Except.bind, allStrings_map_some]
  · simpa using visitFormattedValues_length vs (args.map some) h

/-- C4 witness: a literal run followed by a bare segment `x` and a segment `y` with
specifier `02` yields a two-placeholder template and the two arguments in order. -/
theorem c4_interpolation_shape_witness :
    visit (.JoinedStr [.Constant "a=", .Formatted (.Name "x" false) none,
        .Formatted (.Name "y" false) (some "02")]) =
      Except.ok (some ("format!(\"" ++
        templateOf [.Constant "a=", .Formatted (.Name "x" false) none,
          .Formatted (.Name "y" false) (some "02")] ++ "\"," ++
        String.intercalate "," ["x", "y"] ++ ")")) ∧
    (["x", "y"] : List String).length =
      (([.Constant "a=", .Formatted (.Name "x" false) none,
        .Formatted (.Name "y" false) (some "02")] : List JValue).filter
          isFormattedSeg).length :=
  c4_interpolation_shape
    [.Constant "a=", .Formatted (.Name "x" false) none,
     .Formatted (.Name "y" false) (some "02")] ["x", "y"] rfl

/-- C5: translating the exponentiation node `a ** b` yields the translation of `a`,
then `.pow(`, then the translation of `b`, then `)` — never an infix token. -/
theorem c5_pow_method_call (l r : Node) (sl sr : String)
    (hl : visit l = Except.ok (some sl)) (hr : visit r = Except.ok (some sr)) :
    visit (.BinOp l .Pow r) = Except.ok (some (sl ++ ".pow(" ++ sr ++ ")")) := by
  simp [visit, hl, hr, pyFmt, bind, Except.bind]

/-- C5 witness: `a ** b` translates to `a.pow(b)`. -/
theorem c5_pow_method_call_witness :
    visit (.BinOp (.Name "a" false) .Pow (.Name "b" false)) =
      Except.ok (some ("a" ++ ".pow(" ++ "b" ++ ")")) :=
  c5_pow_method_call (.Name "a" false) (.Name "b" false) "a" "b" rfl rfl

/-- C6: translating the membership test `x in y` yields the translation of `y`, then
`.any(`, then the translation of `x`, then `)` — a method call on the container
operand, not an infix operator. -/
theorem c6_membership_any_call (x y : Node) (sx sy : String)
    (hx : visit x = Except.ok (some sx)) (hy : visit y = Except.ok (some sy)) :
    visit (.Compare x .In [] y []) = Except.ok (some (sy ++ ".any(" ++ sx ++ ")")) := by
  simp [visit, hx, hy, visit_op, symbols, pyFmt, bind, Except.bind]

/-- C6 witness: `x in y` translates to `y.any(x)`. -/
theorem c6_membership_any_call_witness :
    visit (.Compare (.Name "x" false) .In [] (.Name "y" false) []) =
      Except.ok (some ("y" ++ ".any(" ++ "x" ++ ")")) :=
  c6_membership_any_call (.Name "x" false) (.Name "y" false) "x" "y" rfl rfl

/-- C7: the translation of a comparison node is determined solely by the left operand,
the first operator and the first comparator; any further operator/comparator pairs of
a chained comparison have no effect on the output. -/
theorem c7_compare_first_pair_only (l : Node) (o : Op) (ops : List Op) (c : Node)
    (comps : List Node) :
    visit (.Compare l o ops c comps) = visit (.Compare l o [] c []) := rfl

/-- C8: a conditional translates to the `if <cond> \x7b` line, the independent
translations of the body statements, and a closing line, all newline-joined; a
`\x7d else \x7b` block with the translated else-branch statements is appended exactly
when the else-branch is non-empty. -/
theorem c8_if_rendering (test : Node) (body orelse : List Node) (st : String)
    (bs os : List String)
    (ht : visit test = Except.ok (some st))
    (hb : visitEach body = Except.ok (bs.map some))
    (ho : visitEach orelse = Except.ok (os.map some)) :
    visit (.If test body orelse) =
      Except.ok (some (String.intercalate "\n"
        (("if " ++ st ++ " \x7b") :: bs ++
          (if os.isEmpty then ["\x7d"]
           else "\x7d else \x7b" :: os ++ ["\x7d"])))) := by
  cases os with
  | nil =>
    simp [visit, ht, hb, ho, bind, Except.bind, pyFmt, allStrings_cons_some,
      allStrings_append, allStrings_map_some, allStrings]
  | cons o osrest =>
    simp [visit, ht, hb, ho, bind, Except.bind, pyFmt, allStrings_cons_some,
      allStrings_append, allStrings_map_some, allStrings]

/-- C8 witness: `if a == b: return a else: return c` renders the two-branch block of
the specification's conditional scenario. -/
theorem c8_if_rendering_witness :
    visit (.If (.Compare (.Name "a" false) .Eq [] (.Name "b" false) [])
        [.Return (some (.Name "a" false))] [.Return (some (.Name "c" false))]) =
      Except.ok (some (String.intercalate "\n"
        (("if " ++ "a == b" ++ " \x7b") :: ["return a;"] ++
          (if (["return c;"] : List String).isEmpty then ["\x7d"]
           else "\x7d else \x7b" :: ["return c;"] ++ ["\x7d"])))) :=
  c8_if_rendering (.Compare (.Name "a" false) .Eq [] (.Name "b" false) [])
    [.Return (some (.Name "a" false))] [.Return (some (.Name "c" false))]
    "a == b" ["return a;"] ["return c;"] rfl rfl rfl

/-- C9: translating an integer numeric literal with value `n` emits its decimal text,
and reading that text back as a target-language numeric literal denotes the same
value `n`. -/
theorem c9_numeric_literal_roundtrip (n : Int) :
    visit (.Num n) = Except.ok (some (pyIntRepr n)) ∧
    parseIntLit (pyIntRepr n) = some n := by
  refine ⟨rfl, ?_⟩
  by_cases hn : n < 0
  · rw [pyIntRepr, if_pos hn, parseIntLit]
    have hdata : ("-" ++ pyNatRepr n.natAbs).data = '-' :: (pyNatRepr n.natAbs).data := rfl
    rw [hdata]
    simp only [List.head?_cons, List.tail_cons, if_pos rfl]
    have hmk : String.mk (pyNatRepr n.natAbs).data = pyNatRepr n.natAbs := rfl
    rw [hmk, parseDecNat_pyNatRepr]
    exact congrArg some (by omega : -((n.natAbs : Int)) = n)
  · rw [pyIntRepr, if_neg hn, parseIntLit,
      if_neg (pyNatRepr_head_ne_minus _), parseDecNat_pyNatRepr]
    exact congrArg some (by omega : ((n.natAbs : Int)) = n)

/-- C10 counterexample: the claim asserts that `l // r` translates to exactly the same
text as `l / r`. On the code, floor division misses the no-whitespace branch reserved
for `Mult` and `Div`, so `a // b` renders spaced while `a / b` renders unspaced. -/
theorem c10_floordiv_spacing_cex :
    visit (.BinOp (.Name "a" false) .FloorDiv (.Name "b" false)) =
      Except.ok (some "(a / b)") ∧
    visit (.BinOp (.Name "a" false) .Div (.Name "b" false)) =
      Except.ok (some "(a/b)") ∧
    ("(a / b)" : String) ≠ "(a/b)" :=
  ⟨rfl, rfl, by decide⟩

/-- C10 (amended): the operator table does collapse source distinctions — floor
division and true division share the token `/`, identity comparison shares `==` with
equality and negated identity shares `!=` with inequality, so `l is r` and `l is not r`
translate to exactly the same text as `l == r` and `l != r`; but the two division
forms still render differently, floor division spaced and true division unspaced. -/
theorem c10_operator_collapse :
    symbols .FloorDiv = symbols .Div ∧
    (∀ (l r : Node) (sl sr : String),
      visit l = Except.ok (some sl) → visit r = Except.ok (some sr) →
      visit (.BinOp l .FloorDiv r) =
          Except.ok (some ("(" ++ sl ++ " / " ++ sr ++ ")")) ∧
      visit (.BinOp l .Div r) = Except.ok (some ("(" ++ sl ++ "/" ++ sr ++ ")"))) ∧
    (∀ (l c : Node) (ops : List Op) (comps : List Node),
      visit (.Compare l .Is ops c comps) = visit (.Compare l .Eq ops c comps) ∧
      visit (.Compare l .IsNot ops c comps) =
        visit (.Compare l .NotEq ops c comps)) := by
  refine ⟨rfl, ?_, fun l c ops comps => ⟨rfl, rfl⟩⟩
  intro l r sl sr hl hr
  constructor
  · have hfold : "(" ++ sl ++ " " ++ "/" ++ " " ++ sr ++ ")" =
        "(" ++ sl ++ " / " ++ sr ++ ")" := by
      apply String.ext
      simp [String.data_append]
    rw [← hfold]
    simp [visit, hl, hr, visit_op, symbols, pyFmt, bind, Except.bind]
  · simp [visit, hl, hr, visit_op, symbols, pyFmt, bind, Except.bind]

/-- C10 witness: instantiates the amended statement at `a // b` and `a / b`. -/
theorem c10_operator_collapse_witness :
    visit (.BinOp (.Name "a" false) .FloorDiv (.Name "b" false)) =
      Except.ok (some ("(" ++ "a" ++ " / " ++ "b" ++ ")")) ∧
    visit (.BinOp (.Name "a" false) .Div (.Name "b" false)) =
      Except.ok (some ("(" ++ "a" ++ "/" ++ "b" ++ ")")) :=
  c10_operator_collapse.2.1 (.Name "a" false) (.Name "b" false) "a" "b" rfl rfl

end Pyrs
